import Mathlib

/-!
Verification of the artifact lifecycle and serving logic of an MLOps
pipeline.  The serving process (src/api/main.py) is embedded as pure
functions over an explicit global-state record; the training pipeline
stages (src/dags/train_pipeline.py) are embedded as functions over an
explicit filesystem / handoff model.  Machine floats are modelled by ℚ;
exceptions by Except.
-/

namespace MLOps

instance {ε α : Type} [DecidableEq ε] [DecidableEq α] :
    DecidableEq (Except ε α) := fun a b =>
  match a, b with
  | .error e, .error f => decidable_of_iff (e = f) (by simp)
  | .error _, .ok _ => isFalse (by simp)
  | .ok _, .error _ => isFalse (by simp)
  | .ok x, .ok y => decidable_of_iff (x = y) (by simp)

/-- A numeric cell value or a categorical (string) cell value of a
pandas DataFrame. -/
inductive Val where
  | num (q : ℚ)
  | str (s : String)
deriving DecidableEq, Repr

/-- A pandas DataFrame: named columns and rows of possibly-null cells
(`none` models NaN / a null cell). -/
structure DataFrame where
  columns : List String
  rows : List (List (Option Val))
deriving DecidableEq, Repr

/-- Models df.shape: (number of rows, number of columns). -/
def DataFrame.shape (df : DataFrame) : Nat × Nat :=
  (df.rows.length, df.columns.length)

/-- Models df.isnull().sum().sum(): total count of null cells. -/
def DataFrame.nullCount (df : DataFrame) : Nat :=
  (df.rows.map (fun r => (r.filter Option.isNone).length)).sum

/-- The trained artifact (a fitted sklearn classifier as used by the
serving code): an opaque predictor giving, per feature row, a label and
a per-class probability distribution.  A raised exception inside the
library is modelled by `Except.error`. -/
structure Artifact where
  predictRow : List ℚ → Except String String
  predictProbaRow : List ℚ → Except String (List ℚ)

/-- The parsed metrics.json sidecar as the serving code reads it: a
JSON object whose keys may each be absent (`dict.get` with a default). -/
structure Metadata where
  train_accuracy : Option ℚ
  features_used : Option (List String)
  classes : Option (List String)

/-- The module-level globals of src/api/main.py. -/
structure Globals where
  MODEL : Option Artifact
  MODEL_METADATA : Option Metadata
  MODEL_LOADED : Bool

/-- The filesystem as seen by the serving process: existence probe,
joblib.load of an artifact file, json.load of a metrics file.  A throw
is an `Except.error`. -/
structure FS where
  pathExists : String → Bool
  loadArtifact : String → Except String Artifact
  readMetrics : String → Except String Metadata

/-- The ordered candidate path list probed at serving startup
(src/api/main.py lines 92-97). -/
def api_possible_paths : List String :=
  ["models/model.pkl", "./models/model.pkl",
   "/opt/airflow/models/model.pkl", "/app/models/model.pkl"]

/-- os.path.dirname for the slash-separated paths used here:
everything before the last slash. -/
def dirname (p : String) : String :=
  String.mk (((p.toList.reverse.dropWhile (fun c => !(c == '/'))).drop 1).reverse)

/-- Startup load (src/api/main.py `load_model`, lines 82-131): probe the
candidate paths in order, load the artifact from the first existing
path, then read the metrics sidecar if it exists.  Any exception is
caught and leaves MODEL_LOADED false. -/
def load_model (fs : FS) : Globals :=
  match api_possible_paths.find? fs.pathExists with
  | none => ⟨none, none, false⟩
  | some p =>
    match fs.loadArtifact p with
    | .error _ => ⟨none, none, false⟩
    | .ok m =>
      if fs.pathExists (dirname p ++ "/metrics.json") then
        match fs.readMetrics (dirname p ++ "/metrics.json") with
        | .error _ => ⟨some m, none, false⟩
        | .ok md => ⟨some m, some md, true⟩
      else ⟨some m, none, true⟩

/-- The state of the serving process at startup, before `load_model`. -/
def initGlobals : Globals := ⟨none, none, false⟩

/-- A serving state that can actually occur: the initial state or the
result of the one-shot startup load. -/
def Reachable (g : Globals) : Prop :=
  g = initGlobals ∨ ∃ fs, g = load_model fs

/-- The serving state machine is in its Loaded state
(`MODEL_LOADED and MODEL is not None`). -/
def Loaded (g : Globals) : Bool :=
  g.MODEL_LOADED && g.MODEL.isSome

/-- Response of the /health endpoint. -/
structure HealthResponse where
  status : String
  model_loaded : Bool
  model_version : Option String
  timestamp : String
  message : String
deriving DecidableEq, Repr

/-- Endpoint /health (src/api/main.py `health_check`, lines 134-159).  Total: it
always returns a normal response, never an error. -/
def health_check (g : Globals) (now : String) : HealthResponse :=
  if Loaded g then
    ⟨"healthy", g.MODEL_LOADED, some "1.0.0", now,
     "API is running and model is loaded"⟩
  else
    ⟨"unhealthy", g.MODEL_LOADED, none, now,
     "API is running but model is not loaded"⟩

/-- An HTTPException raised at the serving boundary. -/
structure HTTPError where
  status_code : Nat
  detail : String
deriving DecidableEq, Repr

/-- Response of the /model-info endpoint (timestamp passed in). -/
structure ModelInfo where
  model_name : String
  model_type : String
  features : List String
  classes : List String
  accuracy : ℚ
  timestamp : String
deriving DecidableEq, Repr

/-- Compiled-in default feature names (src/api/main.py line 183). -/
def default_features : List String :=
  ["sepal_length", "sepal_width", "petal_length", "petal_width"]

/-- Compiled-in default class names (src/api/main.py line 184). -/
def default_classes : List String :=
  ["setosa", "versicolor", "virginica"]

/-- Endpoint /model-info (src/api/main.py `get_model_info`, lines 162-187):
503 unless Loaded; otherwise fields come from `MODEL_METADATA or {}`
with `dict.get` defaults. -/
def get_model_info (g : Globals) (now : String) : Except HTTPError ModelInfo :=
  if Loaded g then
    let metadata := g.MODEL_METADATA.getD ⟨none, none, none⟩
    .ok ⟨"Random Forest Classifier",
         "sklearn.ensemble.RandomForestClassifier",
         metadata.features_used.getD default_features,
         metadata.classes.getD default_classes,
         metadata.train_accuracy.getD 1,
         now⟩
  else
    .error ⟨503, "Model not loaded"⟩

/-- Request body of /predict and of each /predict-batch element: the
four named floats validated by the Transport layer. -/
structure PredictionInput where
  sepal_length : ℚ
  sepal_width : ℚ
  petal_length : ℚ
  petal_width : ℚ
deriving DecidableEq, Repr

/-- The numeric feature row built in the exact field order the artifact
expects (src/api/main.py lines 213-218 and 276-281). -/
def PredictionInput.toVec (p : PredictionInput) : List ℚ :=
  [p.sepal_length, p.sepal_width, p.petal_length, p.petal_width]

/-- np.max over a row: raises on an empty array, otherwise the maximum. -/
def npMax (l : List ℚ) : Except String ℚ :=
  match l with
  | [] => .error "zero-size array to reduction operation maximum"
  | x :: xs => .ok (xs.foldl max x)

/-- Response of the /predict endpoint. -/
structure PredictionOutput where
  prediction : String
  confidence : ℚ
  input_features : PredictionInput
  model_version : String
  timestamp : String
deriving DecidableEq, Repr

/-- Endpoint /predict (src/api/main.py `predict`, lines 190-252): 503 unless
Loaded; then the feature row is built, the artifact is invoked for a
label and a probability distribution, and the confidence is the maximum
of the distribution; any exception in that block becomes a 400. -/
def predict (g : Globals) (input : PredictionInput) (now : String) :
    Except HTTPError PredictionOutput :=
  match g.MODEL, g.MODEL_LOADED with
  | some M, true =>
    match M.predictRow input.toVec with
    | .error e => .error ⟨400, "Prediction failed: " ++ e⟩
    | .ok pred =>
      match M.predictProbaRow input.toVec with
      | .error e => .error ⟨400, "Prediction failed: " ++ e⟩
      | .ok proba =>
        match npMax proba with
        | .error e => .error ⟨400, "Prediction failed: " ++ e⟩
        | .ok confidence => .ok ⟨pred, confidence, input, "1.0.0", now⟩
  | _, _ => .error ⟨503, "Model is not loaded. Please check server logs."⟩

/-- One element of the /predict-batch response list. -/
structure BatchItem where
  index : Nat
  prediction : String
  confidence : ℚ
  input_features : PredictionInput
deriving DecidableEq, Repr

/-- Response of the /predict-batch endpoint. -/
structure BatchOutput where
  total_samples : Nat
  predictions : List BatchItem
  timestamp : String
deriving DecidableEq, Repr

/-- The numpy / sklearn boundary for the batch feature matrix:
`np.array` of an empty row list yields a 1-D empty array, which the
estimator input validation (check_array) rejects with a ValueError;
a non-empty list of 4-float rows passes through unchanged. -/
def checkArray (rows : List (List ℚ)) : Except String (List (List ℚ)) :=
  match rows with
  | [] => .error "Expected 2D array, got 1D array instead"
  | _ => .ok rows

/-- All-or-nothing traversal: the per-row application of a fallible
operation to the whole batch, failing the batch at the first failing
row. -/
def exceptMap (f : α → Except String β) : List α → Except String (List β)
  | [] => .ok []
  | x :: xs =>
    match f x with
    | .error e => .error e
    | .ok y =>
      match exceptMap f xs with
      | .error e => .error e
      | .ok ys => .ok (y :: ys)

/-- The result-building loop of /predict-batch (src/api/main.py lines
287-299): enumerate the zip of per-row labels and confidences, echoing
the input at the same index. -/
def buildResults : Nat → List PredictionInput → List String → List ℚ → List BatchItem
  | _, [], _, _ => []
  | _, _, [], _ => []
  | _, _, _, [] => []
  | i, inp :: inputs, pred :: preds, c :: confs =>
    ⟨i, pred, c, inp⟩ :: buildResults (i + 1) inputs preds confs

/-- The try-block of /predict-batch: build the feature matrix, invoke
the artifact for labels and distributions, take the per-row maximum,
assemble the indexed results. -/
def batchBody (M : Artifact) (inputs : List PredictionInput) (now : String) :
    Except String BatchOutput :=
  match checkArray (inputs.map PredictionInput.toVec) with
  | .error e => .error e
  | .ok feats =>
    match exceptMap M.predictRow feats with
    | .error e => .error e
    | .ok preds =>
      match exceptMap M.predictProbaRow feats with
      | .error e => .error e
      | .ok probas =>
        match exceptMap npMax probas with
        | .error e => .error e
        | .ok confs =>
          .ok ⟨inputs.length, buildResults 0 inputs preds confs, now⟩

/-- Endpoint /predict-batch (src/api/main.py `predict_batch`, lines 255-314):
503 unless Loaded; any exception inside the try-block becomes a 400
for the whole batch. -/
def predict_batch (g : Globals) (inputs : List PredictionInput) (now : String) :
    Except HTTPError BatchOutput :=
  match g.MODEL, g.MODEL_LOADED with
  | some M, true =>
    match batchBody M inputs now with
    | .error e => .error ⟨400, "Batch prediction failed: " ++ e⟩
    | .ok out => .ok out
  | _, _ => .error ⟨503, "Model is not loaded"⟩

/-- A failure signal raised by a pipeline stage. -/
inductive StageError where
  | notFound (msg : String)
  | failure (msg : String)
deriving DecidableEq, Repr

/-- The ordered candidate path list probed by the Load stage
(src/dags/train_pipeline.py lines 58-63). -/
def dag_possible_paths : List String :=
  ["/opt/airflow/data/dataset.csv", "./data/dataset.csv",
   "/data/dataset.csv", "../data/dataset.csv"]

/-- The filesystem as seen by the pipeline Load stage: existence probe
and pd.read_csv. -/
structure PipelineFS where
  pathExists : String → Bool
  readCsv : String → DataFrame

/-- The return value plus XCom handoff payload of the Load stage. -/
structure LoadResult where
  status : String
  shape : Nat × Nat
  xcomDataset : DataFrame
deriving DecidableEq, Repr

/-- Load stage (src/dags/train_pipeline.py `load_data`, lines 50-91):
probe the candidate paths in order, raise FileNotFoundError if none
exists, otherwise read the CSV, log its shape and null-cell count, and
hand the raw DataFrame off unchanged.  No row-count or null-cell
validation branches exist in the code: the counts are only logged. -/
def load_data (fs : PipelineFS) : Except StageError LoadResult :=
  match dag_possible_paths.find? fs.pathExists with
  | none => .error (.notFound "dataset.csv not found")
  | some p =>
    let df := fs.readCsv p
    .ok ⟨"success", df.shape, df⟩

/-- Modelled from the spec: the train/test split is performed by the
external Trainer collaborator (sklearn train_test_split with
test_size=0.2, a fixed random_state seed and stratify, called at
src/dags/train_pipeline.py lines 115-117); the library itself is not
part of this repository.  Per its documented contract the test
partition holds ceiling(0.2 * n) elements, the train partition the
rest, and the selection is a pure function of the seed and the input;
the seed-keyed permutation is modelled by a rotation. -/
def train_test_split (seed : Nat) (ds : List α) : List α × List α :=
  let n := ds.length
  let nTest := (n + 4) / 5
  let shuffled := ds.rotate (seed % (n + 1))
  (shuffled.drop nTest, shuffled.take nTest)

/-- The metrics dictionary of the Train stage (JSON object; a python
dict preserves insertion order, so feature_importance is an ordered
association list). -/
structure MetricsPayload where
  train_accuracy : ℚ
  test_accuracy : ℚ
  training_samples : Nat
  test_samples : Nat
  features_used : List String
  classes : List String
  feature_importance : List (String × ℚ)
deriving DecidableEq, Repr

/-- The metrics dictionary assembled inside the Train stage
(src/dags/train_pipeline.py `train_model`, lines 139-154).  The fitted
model and its feature_importances_ come from the external Trainer; the
dict built at line 140 is `dict(zip(X.columns, importances))`, i.e. the
pairs in feature-column order. -/
def train_model_metrics (cols : List String) (classNames : List String)
    (importances : List ℚ) (trainAcc testAcc : ℚ)
    (nTrain nTest : Nat) : MetricsPayload :=
  ⟨trainAcc, testAcc, nTrain, nTest, cols, classNames, cols.zip importances⟩

/-- The descending ranking used only for the log lines at
src/dags/train_pipeline.py lines 141-143
(`sorted(feature_importance.items(), key=value, reverse=True)`). -/
def logRanking (fi : List (String × ℚ)) : List (String × ℚ) :=
  List.insertionSort (fun a b => b.2 ≤ a.2) fi

/-- A pair list is ranked descending by its second component. -/
def SortedDesc (fi : List (String × ℚ)) : Prop :=
  List.Chain' (fun a b => b.2 ≤ a.2) fi

instance (fi : List (String × ℚ)) : Decidable (SortedDesc fi) :=
  inferInstanceAs (Decidable (List.Chain' _ fi))

instance : IsTotal (String × ℚ) (fun a b => b.2 ≤ a.2) :=
  ⟨fun a b => le_total b.2 a.2⟩

instance : IsTrans (String × ℚ) (fun a b => b.2 ≤ a.2) :=
  ⟨fun _ _ _ h1 h2 => le_trans h2 h1⟩

/-- One durable write performed by the Save stage. -/
inductive WriteEvent where
  | mkdirp (dir : String)
  | writeArtifact (path : String) (m : Artifact)
  | writeMetrics (path : String) (mt : MetricsPayload)

/-- Save stage (src/dags/train_pipeline.py `save_model`, lines
165-213) as its ordered trace of durable writes: the models directory,
then joblib.dump of model.pkl (line 187), then metrics.json (lines
195-197). -/
def save_model (m : Artifact) (mt : MetricsPayload) : List WriteEvent :=
  [.mkdirp "/opt/airflow/models",
   .writeArtifact "/opt/airflow/models/model.pkl" m,
   .writeMetrics "/opt/airflow/models/metrics.json" mt]

/-- How the serving process parses a written metrics.json sidecar. -/
def MetricsPayload.toMetadata (mt : MetricsPayload) : Metadata :=
  ⟨some mt.train_accuracy, some mt.features_used, some mt.classes⟩

/-- Effect of one durable write on the filesystem the serving process
later reads. -/
def applyEvent (fs : FS) : WriteEvent → FS
  | .mkdirp _ => fs
  | .writeArtifact p m =>
    ⟨fun q => q == p || fs.pathExists q,
     fun q => if q == p then .ok m else fs.loadArtifact q,
     fs.readMetrics⟩
  | .writeMetrics p mt =>
    ⟨fun q => q == p || fs.pathExists q,
     fs.loadArtifact,
     fun q => if q == p then .ok mt.toMetadata else fs.readMetrics q⟩

/-- A filesystem with no artifact and no metrics (first deployment). -/
def emptyFS : FS :=
  ⟨fun _ => false,
   fun _ => .error "FileNotFoundError",
   fun _ => .error "FileNotFoundError"⟩

/-- Replay a trace of durable writes onto a filesystem. -/
def applyEvents (fs : FS) (es : List WriteEvent) : FS :=
  es.foldl applyEvent fs

/-! Concrete values used by witness and counterexample theorems. -/

/-- A concrete artifact: constant label, fixed 3-class distribution. -/
def demoArtifact : Artifact :=
  ⟨fun _ => .ok "setosa", fun _ => .ok [1/10, 7/10, 1/5]⟩

/-- A spy artifact whose invocation is observable: any call to it
produces an error, so a 503 rejection proves it was never invoked. -/
def spyArtifact : Artifact :=
  ⟨fun _ => .error "SPY INVOKED", fun _ => .error "SPY INVOKED"⟩

/-- A well-formed request body. -/
def demoInput : PredictionInput := ⟨51/10, 35/10, 14/10, 2/10⟩

/-- A second well-formed request body. -/
def demoInput2 : PredictionInput := ⟨0, 0, 0, 0⟩

/-- A Loaded serving state whose metrics sidecar was absent. -/
def gLoaded : Globals := ⟨some demoArtifact, none, true⟩

/-- A state holding an artifact object while MODEL_LOADED is false. -/
def gNotLoaded : Globals := ⟨some spyArtifact, none, false⟩

/-- A one-row DataFrame containing a null cell. -/
def dfNull : DataFrame :=
  ⟨["sepal_length", "species"], [[none, some (.str "setosa")]]⟩

/-- A DataFrame with the five dataset columns and zero rows. -/
def dfEmpty : DataFrame :=
  ⟨["sepal_length", "sepal_width", "petal_length", "petal_width", "species"], []⟩

/-- A pipeline filesystem whose dataset file contains a null cell. -/
def fsNullData : PipelineFS :=
  ⟨fun p => p == "./data/dataset.csv", fun _ => dfNull⟩

/-- A pipeline filesystem whose dataset file has zero rows. -/
def fsEmptyData : PipelineFS :=
  ⟨fun p => p == "./data/dataset.csv", fun _ => dfEmpty⟩

/-- A pipeline filesystem where no candidate dataset path exists. -/
def fsNoData : PipelineFS :=
  ⟨fun _ => false, fun _ => dfEmpty⟩

/-- The batch response for two demo inputs against the demo artifact. -/
def demoBatchOut : BatchOutput :=
  ⟨2, [⟨0, "setosa", 7/10, demoInput⟩, ⟨1, "setosa", 7/10, demoInput2⟩], "t"⟩

/-- Metadata recording a perfect training accuracy and the default
schema, as a training run could legitimately have produced. -/
def perfectMetadata : Metadata :=
  ⟨some 1, some default_features, some default_classes⟩

/-- Feature importances whose column order is not descending. -/
def c8importances : List ℚ := [1/4, 3/4]

/-- Two feature columns for the importance counterexample. -/
def c8cols : List String := ["sepal_length", "petal_length"]

/-- The metrics payload the Train stage assembles on a run where the
first column is less important than the second. -/
def c8metrics : MetricsPayload :=
  train_model_metrics c8cols ["setosa", "versicolor", "virginica"]
    c8importances 1 (5/6) 24 6

/-! Helper lemmas. -/

theorem foldl_max_eq_or_mem : ∀ (xs : List ℚ) (x : ℚ),
    xs.foldl max x = x ∨ xs.foldl max x ∈ xs
  | [], _ => Or.inl rfl
  | y :: ys, x => by
    rw [List.foldl_cons]
    rcases foldl_max_eq_or_mem ys (max x y) with h | h
    · rcases max_choice x y with hc | hc
      · exact Or.inl (by rw [h, hc])
      · exact Or.inr (by rw [h, hc]; exact List.mem_cons_self _ _)
    · exact Or.inr (List.mem_cons_of_mem _ h)

theorem le_foldl_max : ∀ (xs : List ℚ) (x y : ℚ), y = x ∨ y ∈ xs →
    y ≤ xs.foldl max x
  | [], x, y, h => by
    rcases h with rfl | h
    · exact le_refl _
    · cases h
  | z :: zs, x, y, h => by
    rw [List.foldl_cons]
    rcases h with rfl | h
    · exact le_trans (le_max_left y z) (le_foldl_max zs (max y z) _ (Or.inl rfl))
    · rcases List.mem_cons.mp h with rfl | h
      · exact le_trans (le_max_right x y) (le_foldl_max zs (max x y) _ (Or.inl rfl))
      · exact le_foldl_max zs (max x z) y (Or.inr h)

theorem npMax_spec (l : List ℚ) (q : ℚ) (h : npMax l = .ok q) :
    q ∈ l ∧ ∀ x ∈ l, x ≤ q := by
  cases l with
  | nil => cases h
  | cons x xs =>
    have hq : q = xs.foldl max x := by
      simpa [npMax] using h.symm
    subst hq
    constructor
    · rcases foldl_max_eq_or_mem xs x with h | h
      · rw [h]; exact List.mem_cons_self _ _
      · exact List.mem_cons_of_mem _ h
    · intro y hy
      rcases List.mem_cons.mp hy with rfl | hy
      · exact le_foldl_max xs y y (Or.inl rfl)
      · exact le_foldl_max xs x y (Or.inr hy)

theorem exceptMap_ok_length {α β : Type} (f : α → Except String β) :
    ∀ (xs : List α) (ys : List β), exceptMap f xs = .ok ys →
      ys.length = xs.length
  | [], ys, h => by
    simp only [exceptMap] at h
    cases h
    rfl
  | x :: xs, ys, h => by
    simp only [exceptMap] at h
    rcases hf : f x with e | y <;> rw [hf] at h
    · cases h
    · rcases hm : exceptMap f xs with e | ys2 <;> rw [hm] at h
      · cases h
      · cases h
        simp [exceptMap_ok_length f xs ys2 hm]

theorem exceptMap_error_of_mem {α β : Type} (f : α → Except String β) :
    ∀ (xs : List α) (x : α) (e : String), x ∈ xs → f x = .error e →
      ∃ d, exceptMap f xs = .error d
  | [], x, e, hx, _ => by cases hx
  | y :: ys, x, e, hx, hfx => by
    simp only [exceptMap]
    rcases List.mem_cons.mp hx with rfl | hx
    · exact ⟨e, by rw [hfx]⟩
    · rcases hf : f y with d | z
      · exact ⟨d, rfl⟩
      · obtain ⟨d, hd⟩ := exceptMap_error_of_mem f ys x e hx hfx
        exact ⟨d, by rw [hd]⟩

theorem buildResults_length :
    ∀ (k : Nat) (inputs : List PredictionInput) (preds : List String)
      (confs : List ℚ), preds.length = inputs.length →
      confs.length = inputs.length →
      (buildResults k inputs preds confs).length = inputs.length
  | _, [], _, _, _, _ => by
    simp [buildResults]
  | k, inp :: inputs, [], confs, hp, hc => by cases hp
  | k, inp :: inputs, p :: preds, [], hp, hc => by cases hc
  | k, inp :: inputs, p :: preds, c :: confs, hp, hc => by
    simp only [buildResults, List.length_cons]
    rw [buildResults_length (k + 1) inputs preds confs
      (Nat.succ_injective hp) (Nat.succ_injective hc)]

theorem buildResults_get? :
    ∀ (k : Nat) (inputs : List PredictionInput) (preds : List String)
      (confs : List ℚ), preds.length = inputs.length →
      confs.length = inputs.length → ∀ i, i < inputs.length →
      ∃ item, (buildResults k inputs preds confs).get? i = some item ∧
        item.index = k + i ∧ inputs.get? i = some item.input_features
  | _, [], _, _, _, _, i, hi => by cases hi
  | k, inp :: inputs, [], confs, hp, hc, i, hi => by cases hp
  | k, inp :: inputs, p :: preds, [], hp, hc, i, hi => by cases hc
  | k, inp :: inputs, p :: preds, c :: confs, hp, hc, i, hi => by
    cases i with
    | zero => exact ⟨⟨k, p, c, inp⟩, rfl, by simp, rfl⟩
    | succ j =>
      obtain ⟨item, h1, h2, h3⟩ :=
        buildResults_get? (k + 1) inputs preds confs
          (Nat.succ_injective hp) (Nat.succ_injective hc) j
          (Nat.lt_of_succ_lt_succ hi)
      exact ⟨item, h1, by omega, h3⟩

/-- The possible results of the one-shot startup load: either a failed
load (the initial state) or a Loaded state carrying the artifact, with
or without metadata, or an artifact captured with a failed metadata
parse. -/
theorem load_model_shape (fs : FS) :
    load_model fs = initGlobals ∨
    (∃ m, load_model fs = ⟨some m, none, false⟩) ∨
    (∃ m, load_model fs = ⟨some m, none, true⟩) ∨
    (∃ m md, load_model fs = ⟨some m, some md, true⟩) := by
  unfold load_model
  split
  · exact Or.inl rfl
  · split
    · exact Or.inl rfl
    · split
      · split
        · exact Or.inr (Or.inl ⟨_, rfl⟩)
        · exact Or.inr (Or.inr (Or.inr ⟨_, _, rfl⟩))
      · exact Or.inr (Or.inr (Or.inl ⟨_, rfl⟩))

/-- Lemma: checkArray never rewrites the feature matrix: on success it
returns its input unchanged. -/
theorem checkArray_ok (rows rs : List (List ℚ))
    (h : checkArray rows = .ok rs) : rs = rows := by
  cases rows with
  | nil => cases h
  | cons r rest => cases h; rfl

/-- A non-empty feature matrix passes the estimator input validation
unchanged. -/
theorem checkArray_of_ne_nil (rows : List (List ℚ)) (h : rows ≠ []) :
    checkArray rows = .ok rows := by
  cases rows with
  | nil => exact absurd rfl h
  | cons r rest => rfl

/-! Claim theorems. -/

/-- C1: every inference request (predict via /predict, predict_batch
via /predict-batch) arriving while the server state is not Loaded is
rejected with the distinct service-unavailable signal HTTP 503.  The
rejection is the same fixed 503 response for every state with
`Loaded g = false`, in particular for every value of the artifact
functions held in `g.MODEL`, so the artifact predict / predict_proba
operations are never invoked (the witness uses a spy artifact whose
invocation would have produced a 400 instead). -/
theorem predict_rejects_when_not_loaded (g : Globals) (x : PredictionInput)
    (xs : List PredictionInput) (now : String) (h : Loaded g = false) :
    predict g x now =
      .error ⟨503, "Model is not loaded. Please check server logs."⟩ ∧
    predict_batch g xs now = .error ⟨503, "Model is not loaded"⟩ := by
  obtain ⟨mo, md, ml⟩ := g
  cases mo with
  | none => cases ml <;> exact ⟨rfl, rfl⟩
  | some M =>
    cases ml with
    | false => exact ⟨rfl, rfl⟩
    | true => simp [Loaded] at h

/-- C1 witness: a state holding a spy artifact with MODEL_LOADED false
is rejected with 503 on both endpoints. -/
theorem predict_rejects_when_not_loaded_witness :
    Loaded gNotLoaded = false ∧
    (predict gNotLoaded demoInput "t" =
      .error ⟨503, "Model is not loaded. Please check server logs."⟩ ∧
    predict_batch gNotLoaded [demoInput] "t" =
      .error ⟨503, "Model is not loaded"⟩) :=
  ⟨rfl, predict_rejects_when_not_loaded gNotLoaded demoInput [demoInput] "t" rfl⟩

/-- C2 counterexample: the Load stage succeeds on a dataset containing
a null cell and on a dataset with zero rows; the validation step the
claim describes does not exist in load_data, which only logs the
counts. -/
theorem load_stage_no_validation_cex :
    load_data fsNullData = .ok ⟨"success", (1, 2), dfNull⟩ ∧
    dfNull.nullCount = 1 ∧
    load_data fsEmptyData = .ok ⟨"success", (0, 5), dfEmpty⟩ ∧
    dfEmpty.rows.length = 0 := by
  decide

/-- C2 amended: the Load stage probes the fixed ordered candidate path
list and raises a not-found error when no candidate exists; when a
dataset file is found it emits the raw DataFrame unchanged, with no
row-count or null-cell validation (the counts are only logged). -/
theorem load_stage_amended (fs : PipelineFS) :
    ((∀ p ∈ dag_possible_paths, fs.pathExists p = false) →
      load_data fs = .error (.notFound "dataset.csv not found")) ∧
    (∀ p, dag_possible_paths.find? fs.pathExists = some p →
      load_data fs = .ok ⟨"success", (fs.readCsv p).shape, fs.readCsv p⟩) := by
  constructor
  · intro h
    have hn : dag_possible_paths.find? fs.pathExists = none := by
      rw [List.find?_eq_none]
      intro x hx
      simp [h x hx]
    simp [load_data, hn]
  · intro p hp
    simp [load_data, hp]

/-- C2 witness: with no candidate path present the stage raises
not-found; with the dataset present at the second candidate path the
stage emits the raw null-containing DataFrame. -/
theorem load_stage_amended_witness :
    (∀ p ∈ dag_possible_paths, fsNoData.pathExists p = false) ∧
    load_data fsNoData = .error (.notFound "dataset.csv not found") ∧
    (dag_possible_paths.find? fsNullData.pathExists =
      some "./data/dataset.csv") ∧
    load_data fsNullData = .ok ⟨"success", dfNull.shape, dfNull⟩ :=
  ⟨by decide, (load_stage_amended fsNoData).1 (by decide),
   by decide, (load_stage_amended fsNullData).2 "./data/dataset.csv" (by decide)⟩

/-- C3: the Save stage writes the artifact file strictly before the
metrics sidecar; replaying only the prefix of the trace up to the
artifact write (the crash-between-the-writes case) onto an empty store
and running the serving startup load yields the Loaded state with the
artifact present and metrics absent, and model-info then answers with
the compiled-in defaults without erroring. -/
theorem save_order_and_degraded_load (m : Artifact) (mt : MetricsPayload)
    (now : String) :
    (∃ i j pa pm, i < j ∧
      (save_model m mt).get? i = some (.writeArtifact pa m) ∧
      (save_model m mt).get? j = some (.writeMetrics pm mt)) ∧
    load_model (applyEvents emptyFS ((save_model m mt).take 2)) =
      ⟨some m, none, true⟩ ∧
    Loaded ⟨some m, none, true⟩ = true ∧
    get_model_info ⟨some m, none, true⟩ now =
      .ok ⟨"Random Forest Classifier",
        "sklearn.ensemble.RandomForestClassifier", default_features,
        default_classes, 1, now⟩ := by
  refine ⟨⟨1, 2, "/opt/airflow/models/model.pkl",
    "/opt/airflow/models/metrics.json", by omega, rfl, rfl⟩, ?_, rfl, rfl⟩
  rfl

/-- C4: the Train stage split satisfies train + test = total with the
test partition at the fixed proportion 0.2 (ceiling, as the library
computes it), is a pure function of seed and input, and on a 30-row
dataset yields exactly 24 train and 6 test samples. -/
theorem train_split_sizes {α : Type} (seed : Nat) (ds : List α) :
    (train_test_split seed ds).1.length +
      (train_test_split seed ds).2.length = ds.length ∧
    (train_test_split seed ds).2.length = (ds.length + 4) / 5 ∧
    (ds.length = 30 →
      (train_test_split seed ds).1.length = 24 ∧
      (train_test_split seed ds).2.length = 6) := by
  simp only [train_test_split, List.length_drop, List.length_take,
    List.length_rotate]
  refine ⟨by omega, by omega, fun h => ⟨by omega, by omega⟩⟩

/-- C4 witness: Scenario A on a concrete 30-element dataset with
seed 42. -/
theorem train_split_sizes_witness :
    (List.replicate 30 (0 : ℕ)).length = 30 ∧
    (train_test_split 42 (List.replicate 30 (0 : ℕ))).1.length = 24 ∧
    (train_test_split 42 (List.replicate 30 (0 : ℕ))).2.length = 6 :=
  ⟨by decide, (train_split_sizes 42 (List.replicate 30 (0 : ℕ))).2.2 (by decide)⟩

/-- C6: for every reachable server state, health reports healthy iff
the state is Loaded; otherwise it returns the normal unhealthy
response with model_loaded false.  health_check is a total function
into HealthResponse, so the probe itself cannot fail with a server
error: its status is always exactly healthy or unhealthy. -/
theorem health_reports_never_errors (g : Globals) (hr : Reachable g)
    (now : String) :
    ((health_check g now).status = "healthy" ↔ Loaded g = true) ∧
    (Loaded g = false →
      health_check g now =
        ⟨"unhealthy", false, none, now,
         "API is running but model is not loaded"⟩) ∧
    ((health_check g now).status = "healthy" ∨
      (health_check g now).status = "unhealthy") := by
  have hshape : g = initGlobals ∨ (∃ m, g = ⟨some m, none, false⟩) ∨
      (∃ m, g = ⟨some m, none, true⟩) ∨
      (∃ m md, g = ⟨some m, some md, true⟩) := by
    rcases hr with rfl | ⟨fs, rfl⟩
    · exact Or.inl rfl
    · exact load_model_shape fs
  rcases hshape with rfl | ⟨m, rfl⟩ | ⟨m, rfl⟩ | ⟨m, md, rfl⟩ <;>
    refine ⟨?_, ?_, ?_⟩ <;> simp [health_check, Loaded, initGlobals]

/-- C6 witness: the initial (Unloaded) state. -/
theorem health_reports_never_errors_witness :
    Reachable initGlobals ∧
    (((health_check initGlobals "t").status = "healthy" ↔
        Loaded initGlobals = true) ∧
    (Loaded initGlobals = false →
      health_check initGlobals "t" =
        ⟨"unhealthy", false, none, "t",
         "API is running but model is not loaded"⟩) ∧
    ((health_check initGlobals "t").status = "healthy" ∨
      (health_check initGlobals "t").status = "unhealthy")) :=
  ⟨Or.inl rfl, health_reports_never_errors initGlobals (Or.inl rfl) "t"⟩

/-- C7: every successful predict call in the Loaded state returns as
confidence the maximum of the per-class probability distribution the
artifact produced for that input, and the whole response is exactly
the chosen label, that single maximum, the echoed input, version and
timestamp — the distribution itself appears nowhere in the output. -/
theorem predict_confidence_is_max (g : Globals) (M : Artifact)
    (x : PredictionInput) (now : String) (o : PredictionOutput)
    (hM : g.MODEL = some M) (hL : g.MODEL_LOADED = true)
    (ho : predict g x now = .ok o) :
    ∃ label proba, M.predictRow x.toVec = .ok label ∧
      M.predictProbaRow x.toVec = .ok proba ∧
      o.confidence ∈ proba ∧ (∀ c ∈ proba, c ≤ o.confidence) ∧
      o = ⟨label, o.confidence, x, "1.0.0", now⟩ := by
  obtain ⟨mo, md, ml⟩ := g
  dsimp only at hM hL
  subst hM
  subst hL
  simp only [predict] at ho
  rcases hp : M.predictRow x.toVec with e | label <;> simp only [hp] at ho
  · cases ho
  rcases hpr : M.predictProbaRow x.toVec with e | proba <;>
    simp only [hpr] at ho
  · cases ho
  rcases hm : npMax proba with e | c <;> simp only [hm] at ho
  · cases ho
  cases ho
  obtain ⟨hmem, hle⟩ := npMax_spec proba c hm
  exact ⟨label, proba, rfl, rfl, hmem, hle, rfl⟩

/-- C7 witness: a concrete Loaded state with a 3-class distribution
whose maximum is 7/10. -/
theorem predict_confidence_is_max_witness :
    gLoaded.MODEL = some demoArtifact ∧ gLoaded.MODEL_LOADED = true ∧
    predict gLoaded demoInput "t" =
      .ok ⟨"setosa", 7/10, demoInput, "1.0.0", "t"⟩ ∧
    (∃ label proba, demoArtifact.predictRow demoInput.toVec = .ok label ∧
      demoArtifact.predictProbaRow demoInput.toVec = .ok proba ∧
      (7 / 10 : ℚ) ∈ proba ∧ (∀ c ∈ proba, c ≤ (7 / 10 : ℚ)) ∧
      (⟨"setosa", 7/10, demoInput, "1.0.0", "t"⟩ : PredictionOutput) =
        ⟨label, 7/10, demoInput, "1.0.0", "t"⟩) :=
  ⟨rfl, rfl,
   by norm_num [predict, gLoaded, demoArtifact, npMax, max_def],
   predict_confidence_is_max gLoaded demoArtifact demoInput "t"
     ⟨"setosa", 7/10, demoInput, "1.0.0", "t"⟩ rfl rfl
     (by norm_num [predict, gLoaded, demoArtifact, npMax, max_def])⟩

/-- C8 counterexample: on a run whose first feature column is less
important than the second, the emitted metrics payload holds the
importance pairs in column order, which is not ranked descending. -/
theorem feature_importance_not_ranked_cex :
    c8metrics.feature_importance =
      [("sepal_length", 1/4), ("petal_length", 3/4)] ∧
    ¬ SortedDesc c8metrics.feature_importance := by
  constructor
  · rfl
  · intro h
    have hle : (3 / 4 : ℚ) ≤ 1 / 4 := by
      simpa [SortedDesc, c8metrics, train_model_metrics, c8cols,
        c8importances, List.chain'_cons, List.chain'_singleton] using h
    norm_num at hle

/-- C8 amended: the Metrics payload emitted by the Train stage includes
a per-feature importance mapping keyed in the feature-column order of
the dataset (python dict insertion order); the descending ranking is
computed only for the log output, which is a sorted permutation of
that mapping. -/
theorem feature_importance_column_order (cols classNames : List String)
    (imps : List ℚ) (trainAcc testAcc : ℚ) (nTrain nTest : Nat) :
    (train_model_metrics cols classNames imps trainAcc testAcc
      nTrain nTest).feature_importance = cols.zip imps ∧
    SortedDesc (logRanking (train_model_metrics cols classNames imps
      trainAcc testAcc nTrain nTest).feature_importance) ∧
    (logRanking (train_model_metrics cols classNames imps trainAcc
      testAcc nTrain nTest).feature_importance).Perm
      (train_model_metrics cols classNames imps trainAcc testAcc
        nTrain nTest).feature_importance := by
  refine ⟨rfl, ?_, ?_⟩
  · exact List.Pairwise.chain' (List.sorted_insertionSort _ _)
  · exact List.perm_insertionSort _ _

/-- C9 counterexample: in a Loaded state an empty batch does not yield
an empty result list; the artifact boundary rejects the degenerate
empty feature matrix and the whole call fails with the generic 400
batch-failure signal. -/
theorem empty_batch_cex :
    predict_batch gLoaded [] "t" =
      .error ⟨400,
        "Batch prediction failed: Expected 2D array, got 1D array instead"⟩ := by
  decide

/-- C9 amended: for every Loaded state, predict_batch on the empty
input sequence fails the whole call with HTTP 400 (the numpy array of
an empty row list is 1-D and the estimator input validation rejects
it); it does not return an empty result list. -/
theorem empty_batch_amended (g : Globals) (M : Artifact) (now : String)
    (hM : g.MODEL = some M) (hL : g.MODEL_LOADED = true) :
    predict_batch g [] now =
      .error ⟨400,
        "Batch prediction failed: Expected 2D array, got 1D array instead"⟩ := by
  obtain ⟨mo, md, ml⟩ := g
  dsimp only at hM hL
  subst hM
  subst hL
  rfl

/-- C9 witness: the concrete Loaded demo state. -/
theorem empty_batch_amended_witness :
    gLoaded.MODEL = some demoArtifact ∧ gLoaded.MODEL_LOADED = true ∧
    predict_batch gLoaded [] "t" =
      .error ⟨400,
        "Batch prediction failed: Expected 2D array, got 1D array instead"⟩ :=
  ⟨rfl, rfl, empty_batch_amended gLoaded demoArtifact "t" rfl rfl⟩

/-- C5: every batch processed in the Loaded state produces, on success,
exactly one result per input element, index-aligned in input order
(the result at position i carries index i and echoes input i), so no
row is dropped; and a failure of the artifact invocation on any single
item fails the whole batch call with a 400, with no partial-batch
success (the return type admits no partial result). -/
theorem predict_batch_one_result_per_input (g : Globals) (M : Artifact)
    (inputs : List PredictionInput) (now : String)
    (hM : g.MODEL = some M) (hL : g.MODEL_LOADED = true) :
    (∀ out, predict_batch g inputs now = .ok out →
      out.total_samples = inputs.length ∧
      out.predictions.length = inputs.length ∧
      ∀ i, i < inputs.length →
        ∃ item, out.predictions.get? i = some item ∧ item.index = i ∧
          inputs.get? i = some item.input_features) ∧
    (∀ v e, v ∈ inputs.map PredictionInput.toVec →
      M.predictRow v = .error e ∨ M.predictProbaRow v = .error e →
      ∃ d, predict_batch g inputs now = .error ⟨400, d⟩) := by
  obtain ⟨mo, md, ml⟩ := g
  dsimp only at hM hL
  subst hM
  subst hL
  constructor
  · intro out hout
    simp only [predict_batch] at hout
    rcases hb : batchBody M inputs now with e | out2 <;>
      simp only [hb] at hout
    · cases hout
    injection hout with hout2
    subst hout2
    simp only [batchBody] at hb
    rcases hchk : checkArray (inputs.map PredictionInput.toVec) with e | feats <;>
      simp only [hchk] at hb
    · cases hb
    have hfeats := checkArray_ok _ _ hchk
    subst hfeats
    rcases hpreds : exceptMap M.predictRow (inputs.map PredictionInput.toVec)
        with e | preds <;> simp only [hpreds] at hb
    · cases hb
    rcases hprobas : exceptMap M.predictProbaRow
        (inputs.map PredictionInput.toVec) with e | probas <;>
      simp only [hprobas] at hb
    · cases hb
    rcases hconfs : exceptMap npMax probas with e | confs <;>
      simp only [hconfs] at hb
    · cases hb
    cases hb
    have hlp : preds.length = inputs.length := by
      simpa using exceptMap_ok_length _ _ _ hpreds
    have hlpr : probas.length = inputs.length := by
      simpa using exceptMap_ok_length _ _ _ hprobas
    have hlc : confs.length = inputs.length := by
      rw [exceptMap_ok_length _ _ _ hconfs, hlpr]
    refine ⟨rfl, buildResults_length 0 inputs preds confs hlp hlc, ?_⟩
    intro i hi
    obtain ⟨item, h1, h2, h3⟩ :=
      buildResults_get? 0 inputs preds confs hlp hlc i hi
    exact ⟨item, h1, by omega, h3⟩
  · intro v e hv hfail
    rcases inputs with _ | ⟨i0, irest⟩
    · simp at hv
    have hca := checkArray_of_ne_nil ((i0 :: irest).map PredictionInput.toVec)
      (by simp)
    have hbatch : ∃ d, batchBody M (i0 :: irest) now = .error d := by
      rcases hfail with hf | hf
      · obtain ⟨d, hd⟩ := exceptMap_error_of_mem M.predictRow _ v e hv hf
        exact ⟨d, by simp only [batchBody, hca, hd]⟩
      · rcases hpreds : exceptMap M.predictRow
            ((i0 :: irest).map PredictionInput.toVec) with d | preds
        · exact ⟨d, by simp only [batchBody, hca, hpreds]⟩
        · obtain ⟨d, hd⟩ := exceptMap_error_of_mem M.predictProbaRow _ v e hv hf
          exact ⟨d, by simp only [batchBody, hca, hpreds, hd]⟩
    obtain ⟨d, hd⟩ := hbatch
    exact ⟨"Batch prediction failed: " ++ d, by simp only [predict_batch, hd]⟩

/-- C5 witness: a batch of two well-formed inputs against the demo
artifact: two results, index-aligned, echoing the inputs. -/
theorem predict_batch_one_result_per_input_witness :
    gLoaded.MODEL = some demoArtifact ∧ gLoaded.MODEL_LOADED = true ∧
    predict_batch gLoaded [demoInput, demoInput2] "t" = .ok demoBatchOut ∧
    demoBatchOut.total_samples = 2 ∧
    demoBatchOut.predictions.length = 2 ∧
    ∃ item, demoBatchOut.predictions.get? 1 = some item ∧ item.index = 1 ∧
      [demoInput, demoInput2].get? 1 = some item.input_features := by
  have heval : predict_batch gLoaded [demoInput, demoInput2] "t" =
      .ok demoBatchOut := by
    norm_num [predict_batch, batchBody, checkArray, gLoaded, demoArtifact,
      npMax, exceptMap, buildResults, demoBatchOut, max_def]
  have h := (predict_batch_one_result_per_input gLoaded demoArtifact
    [demoInput, demoInput2] "t" rfl rfl).1 demoBatchOut heval
  exact ⟨rfl, rfl, heval, h.1, h.2.1, h.2.2 1 (by norm_num)⟩

/-- C10: in a Loaded state whose metrics sidecar was absent at startup,
model-info reports accuracy exactly 1 with the compiled-in default
feature and class names, and the response is identical to the one for
a state whose recorded metadata is a perfect training accuracy with
the default schema — absence of metrics is indistinguishable from a
perfectly accurate model in this response. -/
theorem model_info_degraded_defaults (g : Globals) (now : String)
    (hL : Loaded g = true) (hmd : g.MODEL_METADATA = none) :
    get_model_info g now = .ok ⟨"Random Forest Classifier",
      "sklearn.ensemble.RandomForestClassifier", default_features,
      default_classes, 1, now⟩ ∧
    get_model_info g now =
      get_model_info ⟨g.MODEL, some perfectMetadata, g.MODEL_LOADED⟩ now := by
  obtain ⟨mo, md, ml⟩ := g
  dsimp only at hmd
  subst hmd
  obtain ⟨hml, hmo⟩ : ml = true ∧ mo.isSome = true := by
    simpa [Loaded] using hL
  subst hml
  constructor
  · simp [get_model_info, Loaded, hmo]
  · simp [get_model_info, Loaded, hmo, perfectMetadata]

/-- C10 witness: the concrete degraded Loaded state. -/
theorem model_info_degraded_defaults_witness :
    Loaded gLoaded = true ∧ gLoaded.MODEL_METADATA = none ∧
    (get_model_info gLoaded "t" = .ok ⟨"Random Forest Classifier",
      "sklearn.ensemble.RandomForestClassifier", default_features,
      default_classes, 1, "t"⟩ ∧
    get_model_info gLoaded "t" =
      get_model_info ⟨gLoaded.MODEL, some perfectMetadata,
        gLoaded.MODEL_LOADED⟩ "t") :=
  ⟨rfl, rfl, model_info_degraded_defaults gLoaded "t" rfl rfl⟩

end MLOps
